import Mathlib

/-!
Shallow embedding of the proof-of-stake kernel of oblivioncoincore/oblivion
(src/kernel.cpp): stake-modifier derivation (ComputeStakeModifier), the
kernel-hash evaluator (CheckStakeKernelHash), the coinstake validator
(CheckProofOfStake), the coinstake timestamp policy (CheckCoinStakeTimestamp)
and the staking probe (CheckKernel).

Machine integers are modelled as `Nat` (unsigned) and `Int` (signed, for the
`CBigNum` arbitrary-precision values and `int64_t` amounts).  The chain's
double-SHA256 `Hash` and the external collaborators (transaction index,
`GetTransaction`, `VerifyScript`) are passed as explicit function parameters,
so every definition stays executable and the theorems quantify over them.
-/

/-- Little-endian serialization of a 32-bit unsigned integer, as
`CDataStream` writes an `unsigned int` (low 4 bytes). -/
def serU32 (n : Nat) : List Nat :=
  [n % 256, n / 256 % 256, n / 256 ^ 2 % 256, n / 256 ^ 3 % 256]

/-- Little-endian serialization of a `uint256` (32 bytes). -/
def serU256 (n : Nat) : List Nat :=
  (List.range 32).map (fun i => n / 256 ^ i % 256)

/-- Little-endian serialization of a 32-bit signed integer (two's
complement), as `CDataStream` writes an `int32_t`. -/
def serI32 (n : Int) : List Nat :=
  serU32 (n % 2 ^ 32).toNat

/-- An outpoint `COutPoint`: (origin transaction id, output index). -/
structure COutPoint where
  hash : Nat
  n : Nat
  deriving DecidableEq, Repr

/-- A transaction output `CTxOut`: value (`int64_t`) and locking script
(opaque byte string). -/
structure CTxOut where
  nValue : Int
  scriptPubKey : List Nat
  deriving DecidableEq, Repr

/-- A transaction input `CTxIn`: previous outpoint, unlocking script and
witness (both opaque byte strings). -/
structure CTxIn where
  prevout : COutPoint
  scriptSig : List Nat
  scriptWitness : List Nat
  deriving DecidableEq, Repr

/-- Default-constructed `CTxIn` (null outpoint, empty scripts); used to
totalize the `vin[0]` vector access of the C++ code. -/
def defaultTxIn : CTxIn := ⟨⟨0, 0⟩, [], []⟩

/-- Default-constructed `CTxOut`; used to totalize `vout[n]` accesses. -/
def defaultTxOut : CTxOut := ⟨0, []⟩

/-- A transaction.  `GetHash` (the txid, a hash of the full serialization)
and `IsCoinStake` (a structural predicate) are defined outside src/
(primitives of the transaction class), so they are modelled as fields
carried by the record. -/
structure Transaction where
  nTime : Nat
  vin : List CTxIn
  vout : List CTxOut
  IsCoinStake : Bool
  GetHash : Nat
  deriving DecidableEq, Repr

/-- A block header `CBlockHeader`.  Default construction zeroes every
field (`SetNull`). -/
structure CBlockHeader where
  nVersion : Int
  hashPrevBlock : Nat
  hashMerkleRoot : Nat
  nTime : Nat
  nBits : Nat
  nNonce : Nat
  deriving DecidableEq, Repr

/-- The default-constructed (`SetNull`) block header. -/
def defaultHeader : CBlockHeader := ⟨0, 0, 0, 0, 0, 0⟩

/-- Serialization of a block header (80 bytes): version, previous block
hash, merkle root, time, bits, nonce. -/
def serHeader (h : CBlockHeader) : List Nat :=
  serI32 h.nVersion ++ serU256 h.hashPrevBlock ++ serU256 h.hashMerkleRoot ++
    serU32 h.nTime ++ serU32 h.nBits ++ serU32 h.nNonce

/-- `CBlockHeader::GetHash`: hash of the serialized header, for a given
hash function. -/
def CBlockHeader.HeaderHash (Hash : List Nat → Nat) (h : CBlockHeader) : Nat :=
  Hash (serHeader h)

/-- A block-index entry `CBlockIndex`: block hash, stake modifier, parent
pointer (ancestor chain). -/
inductive CBlockIndex : Type where
  | mk : Nat → Nat → Option CBlockIndex → CBlockIndex

/-- The block hash stored in a `CBlockIndex` entry. -/
def CBlockIndex.blockHash : CBlockIndex → Nat
  | .mk h _ _ => h

/-- The stake modifier `bnStakeModifier` stored in a `CBlockIndex` entry. -/
def CBlockIndex.bnStakeModifier : CBlockIndex → Nat
  | .mk _ m _ => m

/-- The parent pointer `pprev` of a `CBlockIndex` entry. -/
def CBlockIndex.pprev : CBlockIndex → Option CBlockIndex
  | .mk _ _ p => p

/-- Modelled from the spec: `CBigNum::SetCompact` (bignum.h is not under
src/).  The chain's standard compact-difficulty decoding: the top byte is
a size, the low 23 bits a mantissa, bit 23 a sign bit; the value is the
mantissa shifted to occupy `size` bytes, negated when the sign bit is set. -/
def setCompact (nCompact : Nat) : Int :=
  let nSize := nCompact / 2 ^ 24
  let mant := nCompact % 2 ^ 24 % 2 ^ 23
  let signBit := nCompact % 2 ^ 24 / 2 ^ 23
  let mag : Nat := if nSize ≤ 3 then mant / 256 ^ (3 - nSize) else mant * 256 ^ (nSize - 3)
  if signBit = 1 then -(mag : Int) else (mag : Int)

/-- Modelled from the spec: `CBigNum::getuint256` (bignum.h is not under
src/).  The arbitrary-precision value truncated/represented as 256 bits:
the low 256 bits of the magnitude. -/
def getuint256 (n : Int) : Nat :=
  n.natAbs % 2 ^ 256

/-- The serialization hashed by the kernel evaluator (kernel.cpp lines
77-79): stake modifier (`uint256`), `txPrev->nTime` (`unsigned int`),
`prevout.hash` (`uint256`), `prevout.n` (`unsigned int`), `nTimeTx`
(`unsigned int`), in that order. -/
def serKernel (stakeModifier nTimePrev prevoutHash prevoutN nTimeTx : Nat) : List Nat :=
  serU256 stakeModifier ++ serU32 nTimePrev ++ serU256 prevoutHash ++
    serU32 prevoutN ++ serU32 nTimeTx

/-- The two failure returns of `CheckStakeKernelHash`: the timestamp
violation at line 60 (`error("...nTime violation")`) and the
target-comparison failure at line 91 (`return false`). -/
inductive KernelError : Type where
  | nTimeViolation
  | targetNotMet
  deriving DecidableEq, Repr

/-- Result of `CheckStakeKernelHash`: the C++ `bool` return refined by
which return site fired, plus the two by-reference out-parameters
`hashProofOfStake` and `targetProofOfStake`. -/
structure KernelResult where
  result : Except KernelError Unit
  hashProofOfStake : Nat
  targetProofOfStake : Nat
  deriving Repr

/-- `CheckStakeKernelHash` (kernel.cpp lines 57-104).  `Hash` is the
chain's hash function; `hashIn`/`targetIn` are the incoming values of the
by-reference out-parameters (left untouched on the early timestamp
return); `fPrintProofOfStake` only selects logging in the source and is
carried for signature fidelity. -/
def CheckStakeKernelHash (Hash : List Nat → Nat) (nBits : Nat)
    (pindexPrev : CBlockIndex) (_blockFrom : CBlockHeader)
    (txPrev : Transaction) (prevout : COutPoint) (nTimeTx : Nat)
    (hashIn targetIn : Nat) (_fPrintProofOfStake : Bool) : KernelResult :=
  if nTimeTx < txPrev.nTime then
    -- Transaction timestamp violation
    ⟨.error .nTimeViolation, hashIn, targetIn⟩
  else
    -- Base target
    let bnTarget : Int := setCompact nBits
    -- Weighted target
    let nValueIn : Int := (txPrev.vout.getD prevout.n defaultTxOut).nValue
    let bnWeight : Int := nValueIn
    let bnTarget : Int := bnTarget * bnWeight
    let targetProofOfStake : Nat := getuint256 bnTarget
    let bnStakeModifier : Nat := pindexPrev.bnStakeModifier
    -- Calculate hash
    let hashProofOfStake : Nat :=
      Hash (serKernel bnStakeModifier txPrev.nTime prevout.hash prevout.n nTimeTx)
    -- Now check if proof-of-stake hash meets target protocol
    if (hashProofOfStake : Int) > bnTarget then
      ⟨.error .targetNotMet, hashProofOfStake, targetProofOfStake⟩
    else
      ⟨.ok (), hashProofOfStake, targetProofOfStake⟩

/-- `ComputeStakeModifier` (kernel.cpp lines 26-34): zero for the genesis
case, otherwise the hash of the kernel value followed by the parent's
stake modifier. -/
def ComputeStakeModifier (Hash : List Nat → Nat)
    (pindexPrev : Option CBlockIndex) (kernel : Nat) : Nat :=
  match pindexPrev with
  | none => 0  -- genesis block's modifier is 0
  | some p => Hash (serU256 kernel ++ serU256 p.bnStakeModifier)

/-- `CheckCoinStakeTimestamp` (kernel.cpp lines 157-160): the coinstake
timestamp must equal the block timestamp exactly. -/
def CheckCoinStakeTimestamp (nTimeBlock nTimeTx : Int) : Bool :=
  nTimeBlock == nTimeTx

/-- Modelled from the spec: helper loop of the ConfirmationDepthChecker
(`IsConfirmedInNPrevBlocks` lives in validation code that is not under
src/).  Walks ancestors from the current entry, counting steps, until the
target hash is found or the remaining step budget runs out. -/
def isConfirmedAux (target : Nat) : Option CBlockIndex → Nat → Nat → Option Nat
  | none, _, _ => none
  | some b, depth, fuel =>
    if b.blockHash = target then some depth
    else
      match fuel with
      | 0 => none
      | fuel + 1 => isConfirmedAux target b.pprev (depth + 1) fuel

/-- Modelled from the spec: the ConfirmationDepthChecker
(`IsConfirmedInNPrevBlocks`, not under src/).  Walks ancestor entries from
`pindexFrom` toward genesis, counting steps, until either `hashBlock` is
found (success: the actual depth is the number of steps taken, returned as
`some depth`) or `nMaxDepth` steps are exceeded without a match (`none`).
The C++ function returns the success flag and writes the depth to an out
parameter; the `Option Nat` packages both. -/
def IsConfirmedInNPrevBlocks (hashBlock : Nat) (pindexFrom : CBlockIndex)
    (nMaxDepth : Nat) : Option Nat :=
  isConfirmedAux hashBlock (some pindexFrom) 0 nMaxDepth

/-- The script-verification flags passed by `CheckProofOfStake`
(`SCRIPT_VERIFY_P2SH`). -/
def SCRIPT_VERIFY_P2SH : Nat := 1

/-- The failure returns of `CheckProofOfStake`, one per return site:
non-coinstake (line 110), no transaction index (line 117), index lookup
miss (line 122), `GetTransaction` miss (line 130), confirmation-depth
rejection carrying the found depth (line 134), txid mismatch (line 138),
script failure (line 147), kernel-check failure (line 151). -/
inductive PosError : Type where
  | notCoinstake
  | txIndexUnavailable
  | txIndexNotFound
  | prevoutNotInChain
  | stakeDepth (nDepth : Nat)
  | txidMismatch
  | invalidPosScript
  | checkKernelFailed
  deriving DecidableEq, Repr

/-- Result of `CheckProofOfStake`: the C++ `bool` return refined by which
return site fired, plus the two by-reference out-parameters. -/
structure PosResult where
  result : Except PosError Unit
  hashProofOfStake : Nat
  targetProofOfStake : Nat
  deriving Repr

/-- `CheckProofOfStake` (kernel.cpp lines 107-154).  External collaborators
are explicit parameters: `fTxIndex` (the `-txindex` flag), `readTxIndex`
(`pblocktree->ReadTxIndex`, only its success is consumed),
`getTransaction` (`GetTransaction`, returning the previous transaction and
the header of the block that contains it, filled into `blockKernel`), and
`verifyScript` (`VerifyScript`, taking scriptSig, scriptPubKey, witness,
flags, and the checker's transaction/input-index/amount).
Note: as in the source, the local `header` used for the confirmation-depth
check is default-constructed and never populated — `blockKernel` returned
by `getTransaction` is not consulted. -/
def CheckProofOfStake (Hash : List Nat → Nat) (fTxIndex : Bool)
    (readTxIndex : Nat → Bool)
    (getTransaction : Nat → Option (Transaction × CBlockHeader))
    (verifyScript : List Nat → List Nat → List Nat → Nat → Transaction → Nat → Int → Bool)
    (nStakeMinConfirmations : Nat) (pindexPrev : CBlockIndex)
    (tx : Transaction) (nBits : Nat) (hashIn targetIn : Nat)
    (fDebug : Bool) : PosResult :=
  if tx.IsCoinStake = false then
    ⟨.error .notCoinstake, hashIn, targetIn⟩
  else
    -- Kernel (input 0) must match the stake hash target per coin age (nBits)
    let txin : CTxIn := tx.vin.headD defaultTxIn
    -- Transaction index is required to get to block header
    if fTxIndex = false then
      ⟨.error .txIndexUnavailable, hashIn, targetIn⟩
    -- Get transaction index for the previous transaction
    else if readTxIndex txin.prevout.hash = false then
      ⟨.error .txIndexNotFound, hashIn, targetIn⟩
    else
      -- Read txPrev and header of its block
      match getTransaction txin.prevout.hash with
      | none => ⟨.error .prevoutNotInChain, hashIn, targetIn⟩
      | some (txPrev, _blockKernel) =>
        -- C++: `CBlockHeader header;` declared at line 125 and never
        -- assigned; the depth check below therefore hashes the
        -- default-constructed header, not the kernel block's header.
        let header : CBlockHeader := defaultHeader
        match IsConfirmedInNPrevBlocks (header.HeaderHash Hash) pindexPrev
            (nStakeMinConfirmations - 1) with
        | some nDepth => ⟨.error (.stakeDepth nDepth), hashIn, targetIn⟩
        | none =>
          if txPrev.GetHash ≠ txin.prevout.hash then
            ⟨.error .txidMismatch, hashIn, targetIn⟩
          else
            -- Verify signature
            let nIn : Nat := 0
            let vinN : CTxIn := tx.vin.getD nIn defaultTxIn
            let prevOut : CTxOut := txPrev.vout.getD vinN.prevout.n defaultTxOut
            if verifyScript vinN.scriptSig prevOut.scriptPubKey vinN.scriptWitness
                SCRIPT_VERIFY_P2SH tx nIn prevOut.nValue = false then
              ⟨.error .invalidPosScript, hashIn, targetIn⟩
            else
              let kr := CheckStakeKernelHash Hash nBits pindexPrev header txPrev
                txin.prevout tx.nTime hashIn targetIn fDebug
              match kr.result with
              | .error _ =>
                ⟨.error .checkKernelFailed, kr.hashProofOfStake, kr.targetProofOfStake⟩
              | .ok _ => ⟨.ok (), kr.hashProofOfStake, kr.targetProofOfStake⟩

/-- `CheckKernel` (kernel.cpp lines 163-173): the staking-candidate probe.
Local `hashProofOfStake`/`targetProofOfStake` are default-constructed
(zero); `fPrintProofOfStake` takes its default value `false`. -/
def CheckKernel (Hash : List Nat → Nat) (nStakeMinConfirmations : Nat)
    (nBits : Nat) (pindexPrev : CBlockIndex) (header : CBlockHeader)
    (txPrev : Transaction) (prevoutStake : COutPoint) (nTime : Nat) : Bool :=
  match IsConfirmedInNPrevBlocks (header.HeaderHash Hash) pindexPrev
      (nStakeMinConfirmations - 1) with
  | some _ => false
  | none =>
    match (CheckStakeKernelHash Hash nBits pindexPrev header txPrev prevoutStake
        nTime 0 0 false).result with
    | .ok _ => true
    | .error _ => false

/-! Concrete inputs used by witnesses, counterexamples and the code-bug
demonstration. -/

/-- A concrete hash function that maps everything to zero. -/
def zeroHash : List Nat → Nat := fun _ => 0

/-- A concrete hash function that maps everything to one. -/
def oneHash : List Nat → Nat := fun _ => 1

/-- A concrete parent block-index entry: block hash 5, stake modifier 3,
no parent. -/
def idx0 : CBlockIndex := .mk 5 3 none

/-- Compact difficulty 0x03010000, decoding to 65536. -/
def nBitsSmall : Nat := 3 * 2 ^ 24 + 2 ^ 16

/-- Compact difficulty 0x21010000, decoding to 2^256 (a 257-bit target). -/
def nBitsHuge : Nat := 33 * 2 ^ 24 + 2 ^ 16

/-- A concrete origin transaction: time 50, one output of value 1000,
txid 55. -/
def txPrev1000 : Transaction := ⟨50, [], [⟨1000, []⟩], false, 55⟩

/-- A concrete origin transaction whose staked output has negative value. -/
def txPrevNeg : Transaction := ⟨50, [], [⟨-5, []⟩], false, 55⟩

/-- A concrete origin transaction whose staked output has value 1. -/
def txPrevOne : Transaction := ⟨50, [], [⟨1, []⟩], false, 55⟩

/-- A concrete origin transaction with time 300 (later than the coinstake
below). -/
def txPrevLate : Transaction := ⟨300, [], [⟨1000, []⟩], false, 55⟩

/-- The outpoint spending output 0 of transaction 55. -/
def prevout55 : COutPoint := ⟨55, 0⟩

/-- A concrete coinstake transaction: time 200, spending outpoint (55,0). -/
def txStake : Transaction := ⟨200, [⟨⟨55, 0⟩, [], []⟩], [], true, 99⟩

/-- A script verifier that accepts everything. -/
def allowScript : List Nat → List Nat → List Nat → Nat → Transaction → Nat → Int → Bool :=
  fun _ _ _ _ _ _ _ => true

/-- A script verifier that rejects everything. -/
def denyScript : List Nat → List Nat → List Nat → Nat → Transaction → Nat → Int → Bool :=
  fun _ _ _ _ _ _ _ => false

/-- A transaction-index oracle that finds every txid. -/
def alwaysIndexed : Nat → Bool := fun _ => true

/-- A `GetTransaction` oracle serving `txPrevLate` at txid 55. -/
def lookupLate : Nat → Option (Transaction × CBlockHeader) :=
  fun h => if h = 55 then some (txPrevLate, defaultHeader) else none

/-- A `GetTransaction` oracle serving `txPrev1000` at txid 55. -/
def lookup1000 : Nat → Option (Transaction × CBlockHeader) :=
  fun h => if h = 55 then some (txPrev1000, defaultHeader) else none

/-- The header of the block containing the staked origin output in the
code-bug demonstration (time 100, all other fields zero). -/
def c2OriginHeader : CBlockHeader := ⟨0, 0, 0, 100, 0, 0⟩

/-- A concrete hash function for the code-bug demonstration: the origin
block header hashes to 7 (its chain-index hash), everything else to 0. -/
def c2Hash : List Nat → Nat :=
  fun bs => if bs = serHeader c2OriginHeader then 7 else 0

/-- The block-index entry of the block containing the origin output
(hash 7). -/
def c2Origin : CBlockIndex := .mk 7 0 none

/-- The parent block-index entry (hash 5, modifier 3), whose direct parent
is the origin block: the origin output is exactly 1 block deep. -/
def c2Prev : CBlockIndex := .mk 5 3 (some c2Origin)

/-- A `GetTransaction` oracle serving `txPrev1000` together with the header
of its confirming block `c2OriginHeader` at txid 55. -/
def c2Lookup : Nat → Option (Transaction × CBlockHeader) :=
  fun h => if h = 55 then some (txPrev1000, c2OriginHeader) else none

/-! Theorems. -/

/-- Claim C5: `ComputeStakeModifier` returns the all-zero value whenever
the parent block index is absent, regardless of the kernel value; and for
every present parent it returns the hash of the serialization of the
kernel value followed by the parent's stake modifier, in that order. -/
theorem computeStakeModifier_spec (Hash : List Nat → Nat) (kernel : Nat) :
    ComputeStakeModifier Hash none kernel = 0 ∧
    ∀ p : CBlockIndex, ComputeStakeModifier Hash (some p) kernel =
      Hash (serU256 kernel ++ serU256 p.bnStakeModifier) :=
  ⟨rfl, fun _ => rfl⟩

/-- Claim C9: `CheckCoinStakeTimestamp` returns true if and only if the
block timestamp equals the transaction timestamp exactly. -/
theorem checkCoinStakeTimestamp_spec (nTimeBlock nTimeTx : Int) :
    CheckCoinStakeTimestamp nTimeBlock nTimeTx = true ↔ nTimeBlock = nTimeTx := by
  simp [CheckCoinStakeTimestamp]

/-- Claim C6: the staking probe `CheckKernel` returns true if and only if
the confirmation-depth check passes and the same kernel evaluator
`CheckStakeKernelHash` used by validation, called with the same arguments,
accepts; it performs no signature verification and no additional checks. -/
theorem checkKernel_spec (Hash : List Nat → Nat)
    (nStakeMinConfirmations nBits : Nat) (pindexPrev : CBlockIndex)
    (header : CBlockHeader) (txPrev : Transaction) (prevoutStake : COutPoint)
    (nTime : Nat) :
    CheckKernel Hash nStakeMinConfirmations nBits pindexPrev header txPrev
        prevoutStake nTime = true ↔
      (IsConfirmedInNPrevBlocks (header.HeaderHash Hash) pindexPrev
          (nStakeMinConfirmations - 1) = none ∧
        (CheckStakeKernelHash Hash nBits pindexPrev header txPrev prevoutStake
          nTime 0 0 false).result = .ok ()) := by
  unfold CheckKernel
  cases hconf : IsConfirmedInNPrevBlocks (header.HeaderHash Hash) pindexPrev
      (nStakeMinConfirmations - 1) with
  | some d => simp
  | none =>
    cases hker : (CheckStakeKernelHash Hash nBits pindexPrev header txPrev
        prevoutStake nTime 0 0 false).result with
    | ok u => cases u; simp [hker]
    | error e => simp [hker]

/-- Claim C1: whenever `nTimeTx` is not earlier than the origin
transaction time, the kernel hash written by `CheckStakeKernelHash` is the
hash of the serialization of (stake modifier, origin transaction time,
outpoint txid, outpoint index, candidate time) in that order, and the call
accepts if and only if that hash, as an unsigned 256-bit integer, is at
most the weighted target `setCompact nBits * coinValue`. -/
theorem checkStakeKernelHash_spec (Hash : List Nat → Nat) (nBits : Nat)
    (pindexPrev : CBlockIndex) (blockFrom : CBlockHeader)
    (txPrev : Transaction) (prevout : COutPoint)
    (nTimeTx hashIn targetIn : Nat) (fPrint : Bool)
    (h : txPrev.nTime ≤ nTimeTx) :
    (CheckStakeKernelHash Hash nBits pindexPrev blockFrom txPrev prevout
        nTimeTx hashIn targetIn fPrint).hashProofOfStake
      = Hash (serKernel pindexPrev.bnStakeModifier txPrev.nTime prevout.hash
          prevout.n nTimeTx) ∧
    ((CheckStakeKernelHash Hash nBits pindexPrev blockFrom txPrev prevout
        nTimeTx hashIn targetIn fPrint).result = .ok ()
      ↔ (Hash (serKernel pindexPrev.bnStakeModifier txPrev.nTime prevout.hash
            prevout.n nTimeTx) : Int)
          ≤ setCompact nBits * (txPrev.vout.getD prevout.n defaultTxOut).nValue) := by
  simp only [CheckStakeKernelHash]
  rw [if_neg (by omega)]
  by_cases hcmp : (Hash (serKernel pindexPrev.bnStakeModifier txPrev.nTime
      prevout.hash prevout.n nTimeTx) : Int)
      > setCompact nBits * (txPrev.vout.getD prevout.n defaultTxOut).nValue
  · rw [if_pos hcmp]
    exact ⟨rfl, ⟨fun hh => absurd hh (by simp),
      fun hle => absurd hle (not_le.mpr hcmp)⟩⟩
  · rw [if_neg hcmp]
    exact ⟨rfl, ⟨fun _ => not_lt.mp hcmp, fun _ => rfl⟩⟩

/-- Witness for C1 at a concrete input. -/
theorem checkStakeKernelHash_spec_witness :
    (CheckStakeKernelHash zeroHash nBitsSmall idx0 defaultHeader txPrev1000
        prevout55 200 0 0 false).hashProofOfStake
      = zeroHash (serKernel idx0.bnStakeModifier txPrev1000.nTime prevout55.hash
          prevout55.n 200) ∧
    ((CheckStakeKernelHash zeroHash nBitsSmall idx0 defaultHeader txPrev1000
        prevout55 200 0 0 false).result = .ok ()
      ↔ (zeroHash (serKernel idx0.bnStakeModifier txPrev1000.nTime prevout55.hash
            prevout55.n 200) : Int)
          ≤ setCompact nBitsSmall * (txPrev1000.vout.getD prevout55.n defaultTxOut).nValue) :=
  checkStakeKernelHash_spec zeroHash nBitsSmall idx0 defaultHeader txPrev1000
    prevout55 200 0 0 false (by decide)

/-- Helper: a successful `CheckProofOfStake` presupposes a successful
transaction lookup, a passing script verification and an accepting kernel
evaluation. -/
theorem checkProofOfStake_ok_elim (Hash : List Nat → Nat) (fTxIndex : Bool)
    (readTxIndex : Nat → Bool)
    (getTransaction : Nat → Option (Transaction × CBlockHeader))
    (verifyScript : List Nat → List Nat → List Nat → Nat → Transaction → Nat → Int → Bool)
    (nStakeMinConfirmations : Nat) (pindexPrev : CBlockIndex)
    (tx : Transaction) (nBits : Nat) (hashIn targetIn : Nat) (fDebug : Bool)
    (h : (CheckProofOfStake Hash fTxIndex readTxIndex getTransaction verifyScript
        nStakeMinConfirmations pindexPrev tx nBits hashIn targetIn
        fDebug).result = .ok ()) :
    ∃ txPrev blockKernel,
      getTransaction (tx.vin.headD defaultTxIn).prevout.hash
          = some (txPrev, blockKernel) ∧
      verifyScript (tx.vin.getD 0 defaultTxIn).scriptSig
        (txPrev.vout.getD (tx.vin.getD 0 defaultTxIn).prevout.n defaultTxOut).scriptPubKey
        (tx.vin.getD 0 defaultTxIn).scriptWitness SCRIPT_VERIFY_P2SH tx 0
        (txPrev.vout.getD (tx.vin.getD 0 defaultTxIn).prevout.n defaultTxOut).nValue
          = true ∧
      (CheckStakeKernelHash Hash nBits pindexPrev defaultHeader txPrev
        (tx.vin.headD defaultTxIn).prevout tx.nTime hashIn targetIn
        fDebug).result = .ok () := by
  simp only [CheckProofOfStake] at h
  split at h
  next => simp at h
  next =>
    split at h
    next => simp at h
    next =>
      split at h
      next => simp at h
      next =>
        split at h
        next => simp at h
        next txPrev blockKernel heq =>
          split at h
          next d heq2 => simp at h
          next heq2 =>
            split at h
            next => simp at h
            next =>
              split at h
              next => simp at h
              next hvs =>
                split at h
                next e heq3 => simp at h
                next u heq3 =>
                  cases u
                  exact ⟨txPrev, blockKernel, heq, by simpa using hvs, heq3⟩

/-- Helper: when every check before the signature verification passes and
the script verifier rejects, `CheckProofOfStake` returns the
invalid-script error. -/
theorem checkProofOfStake_scriptFail (Hash : List Nat → Nat) (fTxIndex : Bool)
    (readTxIndex : Nat → Bool)
    (getTransaction : Nat → Option (Transaction × CBlockHeader))
    (verifyScript : List Nat → List Nat → List Nat → Nat → Transaction → Nat → Int → Bool)
    (nStakeMinConfirmations : Nat) (pindexPrev : CBlockIndex)
    (tx : Transaction) (nBits : Nat) (hashIn targetIn : Nat) (fDebug : Bool)
    (txPrev : Transaction) (blockKernel : CBlockHeader)
    (h1 : tx.IsCoinStake = true) (h2 : fTxIndex = true)
    (h3 : readTxIndex (tx.vin.headD defaultTxIn).prevout.hash = true)
    (hget : getTransaction (tx.vin.headD defaultTxIn).prevout.hash
        = some (txPrev, blockKernel))
    (h4 : IsConfirmedInNPrevBlocks (defaultHeader.HeaderHash Hash) pindexPrev
        (nStakeMinConfirmations - 1) = none)
    (h5 : txPrev.GetHash = (tx.vin.headD defaultTxIn).prevout.hash)
    (hv : verifyScript (tx.vin.getD 0 defaultTxIn).scriptSig
        (txPrev.vout.getD (tx.vin.getD 0 defaultTxIn).prevout.n defaultTxOut).scriptPubKey
        (tx.vin.getD 0 defaultTxIn).scriptWitness SCRIPT_VERIFY_P2SH tx 0
        (txPrev.vout.getD (tx.vin.getD 0 defaultTxIn).prevout.n defaultTxOut).nValue
          = false) :
    (CheckProofOfStake Hash fTxIndex readTxIndex getTransaction verifyScript
      nStakeMinConfirmations pindexPrev tx nBits hashIn targetIn
      fDebug).result = .error .invalidPosScript := by
  simp only [CheckProofOfStake]
  split
  next hc => rw [h1] at hc; exact Bool.noConfusion hc
  next =>
    split
    next hc => rw [h2] at hc; exact Bool.noConfusion hc
    next =>
      split
      next hc => rw [h3] at hc; exact Bool.noConfusion hc
      next =>
        split
        next heq => rw [hget] at heq; exact Option.noConfusion heq
        next txPrev2 blockKernel2 heq =>
          rw [hget] at heq
          injection heq with hpair
          injection hpair with hfst hsnd
          subst hfst
          split
          next d heq2 => rw [h4] at heq2; exact Option.noConfusion heq2
          next heq2 =>
            rw [if_neg (not_not_intro h5), if_pos hv]

/-- Claim C3: whenever the coinstake transaction's time is earlier than the
origin transaction's time, `CheckProofOfStake` never reports success, and
the kernel evaluator it calls flags the timestamp violation — regardless of
whether the kernel hash would satisfy the weighted target. -/
theorem checkProofOfStake_timestamp_reject (Hash : List Nat → Nat)
    (fTxIndex : Bool) (readTxIndex : Nat → Bool)
    (getTransaction : Nat → Option (Transaction × CBlockHeader))
    (verifyScript : List Nat → List Nat → List Nat → Nat → Transaction → Nat → Int → Bool)
    (nStakeMinConfirmations : Nat) (pindexPrev : CBlockIndex)
    (tx : Transaction) (nBits : Nat) (hashIn targetIn : Nat) (fDebug : Bool)
    (txPrev : Transaction) (blockKernel : CBlockHeader)
    (hget : getTransaction (tx.vin.headD defaultTxIn).prevout.hash
        = some (txPrev, blockKernel))
    (ht : tx.nTime < txPrev.nTime) :
    (CheckProofOfStake Hash fTxIndex readTxIndex getTransaction verifyScript
        nStakeMinConfirmations pindexPrev tx nBits hashIn targetIn
        fDebug).result ≠ .ok () ∧
    (CheckStakeKernelHash Hash nBits pindexPrev defaultHeader txPrev
        (tx.vin.headD defaultTxIn).prevout tx.nTime hashIn targetIn
        fDebug).result = .error .nTimeViolation := by
  have hker : (CheckStakeKernelHash Hash nBits pindexPrev defaultHeader txPrev
      (tx.vin.headD defaultTxIn).prevout tx.nTime hashIn targetIn
      fDebug).result = .error .nTimeViolation := by
    simp only [CheckStakeKernelHash]
    rw [if_pos ht]
  refine ⟨?_, hker⟩
  intro hok
  obtain ⟨txPrev2, blockKernel2, hget2, _, hok2⟩ :=
    checkProofOfStake_ok_elim Hash fTxIndex readTxIndex getTransaction
      verifyScript nStakeMinConfirmations pindexPrev tx nBits hashIn targetIn
      fDebug hok
  rw [hget] at hget2
  injection hget2 with hpair
  injection hpair with hfst hsnd
  subst hfst
  rw [hker] at hok2
  exact Except.noConfusion hok2

/-- Witness for C3 at a concrete input: a coinstake with time 200 spending
an origin with time 300 is rejected. -/
theorem checkProofOfStake_timestamp_reject_witness :
    (CheckProofOfStake zeroHash true alwaysIndexed lookupLate allowScript 2
        idx0 txStake nBitsSmall 0 0 false).result ≠ .ok () ∧
    (CheckStakeKernelHash zeroHash nBitsSmall idx0 defaultHeader txPrevLate
        (txStake.vin.headD defaultTxIn).prevout txStake.nTime 0 0
        false).result = .error .nTimeViolation :=
  checkProofOfStake_timestamp_reject zeroHash true alwaysIndexed lookupLate
    allowScript 2 idx0 txStake nBitsSmall 0 0 false txPrevLate defaultHeader
    (by decide) (by decide)

/-- Claim C4: whenever the external script verifier rejects the call that
`CheckProofOfStake` makes for the coinstake's first input, the validator
never reports success; and if every earlier check passes, it fails with
the invalid-script error. -/
theorem checkProofOfStake_script_reject (Hash : List Nat → Nat)
    (fTxIndex : Bool) (readTxIndex : Nat → Bool)
    (getTransaction : Nat → Option (Transaction × CBlockHeader))
    (verifyScript : List Nat → List Nat → List Nat → Nat → Transaction → Nat → Int → Bool)
    (nStakeMinConfirmations : Nat) (pindexPrev : CBlockIndex)
    (tx : Transaction) (nBits : Nat) (hashIn targetIn : Nat) (fDebug : Bool)
    (txPrev : Transaction) (blockKernel : CBlockHeader)
    (hget : getTransaction (tx.vin.headD defaultTxIn).prevout.hash
        = some (txPrev, blockKernel))
    (hv : verifyScript (tx.vin.getD 0 defaultTxIn).scriptSig
        (txPrev.vout.getD (tx.vin.getD 0 defaultTxIn).prevout.n defaultTxOut).scriptPubKey
        (tx.vin.getD 0 defaultTxIn).scriptWitness SCRIPT_VERIFY_P2SH tx 0
        (txPrev.vout.getD (tx.vin.getD 0 defaultTxIn).prevout.n defaultTxOut).nValue
          = false) :
    (CheckProofOfStake Hash fTxIndex readTxIndex getTransaction verifyScript
        nStakeMinConfirmations pindexPrev tx nBits hashIn targetIn
        fDebug).result ≠ .ok () ∧
    (tx.IsCoinStake = true → fTxIndex = true →
      readTxIndex (tx.vin.headD defaultTxIn).prevout.hash = true →
      IsConfirmedInNPrevBlocks (defaultHeader.HeaderHash Hash) pindexPrev
        (nStakeMinConfirmations - 1) = none →
      txPrev.GetHash = (tx.vin.headD defaultTxIn).prevout.hash →
      (CheckProofOfStake Hash fTxIndex readTxIndex getTransaction verifyScript
        nStakeMinConfirmations pindexPrev tx nBits hashIn targetIn
        fDebug).result = .error .invalidPosScript) := by
  constructor
  · intro hok
    obtain ⟨txPrev2, blockKernel2, hget2, hvt, _⟩ :=
      checkProofOfStake_ok_elim Hash fTxIndex readTxIndex getTransaction
        verifyScript nStakeMinConfirmations pindexPrev tx nBits hashIn targetIn
        fDebug hok
    rw [hget] at hget2
    injection hget2 with hpair
    injection hpair with hfst hsnd
    subst hfst
    rw [hv] at hvt
    exact Bool.noConfusion hvt
  · intro h1 h2 h3 h4 h5
    exact checkProofOfStake_scriptFail Hash fTxIndex readTxIndex getTransaction
      verifyScript nStakeMinConfirmations pindexPrev tx nBits hashIn targetIn
      fDebug txPrev blockKernel h1 h2 h3 hget h4 h5 hv

/-- Witness for C4 at a concrete input: with a rejecting verifier the
validator fails, and since every earlier check passes here, it fails with
the invalid-script error. -/
theorem checkProofOfStake_script_reject_witness :
    (CheckProofOfStake zeroHash true alwaysIndexed lookup1000 denyScript 2
        idx0 txStake nBitsSmall 0 0 false).result ≠ .ok () ∧
    (CheckProofOfStake zeroHash true alwaysIndexed lookup1000 denyScript 2
        idx0 txStake nBitsSmall 0 0 false).result = .error .invalidPosScript :=
  ⟨(checkProofOfStake_script_reject zeroHash true alwaysIndexed lookup1000
      denyScript 2 idx0 txStake nBitsSmall 0 0 false txPrev1000 defaultHeader
      (by decide) (by decide)).1,
   (checkProofOfStake_script_reject zeroHash true alwaysIndexed lookup1000
      denyScript 2 idx0 txStake nBitsSmall 0 0 false txPrev1000 defaultHeader
      (by decide) (by decide)).2 (by decide) rfl (by decide) (by decide)
      (by decide)⟩

/-- Claim C2 (code defect): the confirmation-depth check of
`CheckProofOfStake` hashes a default-constructed header that is never
populated from the origin block, so a coinstake whose origin block is only
1 block deep — within `nStakeMinConfirmations - 1 = 1` of the parent, as
the first conjunct certifies — is nevertheless accepted. -/
theorem checkProofOfStake_depthBug :
    IsConfirmedInNPrevBlocks (c2OriginHeader.HeaderHash c2Hash) c2Prev (2 - 1)
        = some 1 ∧
    (CheckProofOfStake c2Hash true alwaysIndexed c2Lookup allowScript 2
        c2Prev txStake nBitsSmall 0 0 false).result = .ok () :=
  ⟨rfl, rfl⟩

/-- Counterexample for C7: with a staked output of value -5 (`coinValue
<= 0`) the evaluator raises no malformed-input failure: it overwrites the
out-parameters (computing the kernel hash and the truncated target) and
returns the ordinary target-comparison rejection. -/
theorem invalidStakeValue_counterexample :
    (txPrevNeg.vout.getD prevout55.n defaultTxOut).nValue ≤ 0 ∧
    (CheckStakeKernelHash zeroHash nBitsSmall idx0 defaultHeader txPrevNeg
        prevout55 200 999 999 false).result = .error .targetNotMet ∧
    (CheckStakeKernelHash zeroHash nBitsSmall idx0 defaultHeader txPrevNeg
        prevout55 200 999 999 false).hashProofOfStake
      = zeroHash (serKernel idx0.bnStakeModifier txPrevNeg.nTime prevout55.hash
          prevout55.n 200) ∧
    (CheckStakeKernelHash zeroHash nBitsSmall idx0 defaultHeader txPrevNeg
        prevout55 200 999 999 false).targetProofOfStake
      = getuint256 (setCompact nBitsSmall * (-5)) :=
  ⟨by decide, rfl, rfl, rfl⟩

/-- Amended C7: the evaluator has no `InvalidStakeValue` check.  With a
negative coin value (and a positive decoded base target) it still computes
the kernel hash and proceeds to the acceptance comparison, which then
rejects through the ordinary target-not-met path because the weighted
target is negative. -/
theorem invalidStakeValue_amended (Hash : List Nat → Nat) (nBits : Nat)
    (pindexPrev : CBlockIndex) (blockFrom : CBlockHeader)
    (txPrev : Transaction) (prevout : COutPoint)
    (nTimeTx hashIn targetIn : Nat) (fPrint : Bool)
    (h1 : txPrev.nTime ≤ nTimeTx)
    (h2 : (txPrev.vout.getD prevout.n defaultTxOut).nValue < 0)
    (h3 : 0 < setCompact nBits) :
    (CheckStakeKernelHash Hash nBits pindexPrev blockFrom txPrev prevout
        nTimeTx hashIn targetIn fPrint).result = .error .targetNotMet ∧
    (CheckStakeKernelHash Hash nBits pindexPrev blockFrom txPrev prevout
        nTimeTx hashIn targetIn fPrint).hashProofOfStake
      = Hash (serKernel pindexPrev.bnStakeModifier txPrev.nTime prevout.hash
          prevout.n nTimeTx) := by
  simp only [CheckStakeKernelHash]
  rw [if_neg (by omega)]
  have hneg : setCompact nBits * (txPrev.vout.getD prevout.n defaultTxOut).nValue < 0 :=
    mul_neg_of_pos_of_neg h3 h2
  have hgt : (Hash (serKernel pindexPrev.bnStakeModifier txPrev.nTime
      prevout.hash prevout.n nTimeTx) : Int)
      > setCompact nBits * (txPrev.vout.getD prevout.n defaultTxOut).nValue := by
    omega
  rw [if_pos hgt]
  exact ⟨rfl, rfl⟩

/-- Witness for the amended C7 at a concrete input. -/
theorem invalidStakeValue_amended_witness :
    (CheckStakeKernelHash zeroHash nBitsSmall idx0 defaultHeader txPrevNeg
        prevout55 200 0 0 false).result = .error .targetNotMet ∧
    (CheckStakeKernelHash zeroHash nBitsSmall idx0 defaultHeader txPrevNeg
        prevout55 200 0 0 false).hashProofOfStake
      = zeroHash (serKernel idx0.bnStakeModifier txPrevNeg.nTime prevout55.hash
          prevout55.n 200) :=
  invalidStakeValue_amended zeroHash nBitsSmall idx0 defaultHeader txPrevNeg
    prevout55 200 0 0 false (by decide) (by decide) (by decide)

set_option maxRecDepth 8000 in
/-- Counterexample for C8: with compact difficulty 0x21010000 the weighted
target is 2^256 (beyond 256 bits), yet the evaluator raises no
`TargetOverflow` failure: it accepts (comparing against the untruncated
product) while reporting a silently truncated target of 0. -/
theorem targetOverflow_counterexample :
    (2 : Int) ^ 256 ≤ setCompact nBitsHuge
        * (txPrevOne.vout.getD prevout55.n defaultTxOut).nValue ∧
    (CheckStakeKernelHash zeroHash nBitsHuge idx0 defaultHeader txPrevOne
        prevout55 200 0 0 false).result = .ok () ∧
    (CheckStakeKernelHash zeroHash nBitsHuge idx0 defaultHeader txPrevOne
        prevout55 200 0 0 false).targetProofOfStake = 0 :=
  ⟨by decide, rfl, rfl⟩

set_option maxRecDepth 8000 in
/-- Amended C8: when the weighted target exceeds 256 bits the evaluator
raises no error: the outcome is the ordinary accept/target-not-met
decision, the acceptance comparison uses the untruncated
arbitrary-precision product, and the reported target is the product
truncated to its low 256 bits. -/
theorem targetOverflow_amended (Hash : List Nat → Nat) (nBits : Nat)
    (pindexPrev : CBlockIndex) (blockFrom : CBlockHeader)
    (txPrev : Transaction) (prevout : COutPoint)
    (nTimeTx hashIn targetIn : Nat) (fPrint : Bool)
    (h1 : txPrev.nTime ≤ nTimeTx)
    (h2 : (2 : Int) ^ 256 ≤ setCompact nBits
        * (txPrev.vout.getD prevout.n defaultTxOut).nValue) :
    ((CheckStakeKernelHash Hash nBits pindexPrev blockFrom txPrev prevout
        nTimeTx hashIn targetIn fPrint).result = .ok () ∨
      (CheckStakeKernelHash Hash nBits pindexPrev blockFrom txPrev prevout
        nTimeTx hashIn targetIn fPrint).result = .error .targetNotMet) ∧
    ((CheckStakeKernelHash Hash nBits pindexPrev blockFrom txPrev prevout
        nTimeTx hashIn targetIn fPrint).result = .ok ()
      ↔ (Hash (serKernel pindexPrev.bnStakeModifier txPrev.nTime prevout.hash
            prevout.n nTimeTx) : Int)
          ≤ setCompact nBits * (txPrev.vout.getD prevout.n defaultTxOut).nValue) ∧
    (CheckStakeKernelHash Hash nBits pindexPrev blockFrom txPrev prevout
        nTimeTx hashIn targetIn fPrint).targetProofOfStake
      = (setCompact nBits * (txPrev.vout.getD prevout.n defaultTxOut).nValue).toNat
          % 2 ^ 256 := by
  have h0 : (0 : Int) ≤ setCompact nBits
      * (txPrev.vout.getD prevout.n defaultTxOut).nValue :=
    le_trans (by norm_num) h2
  have habs : (setCompact nBits
      * (txPrev.vout.getD prevout.n defaultTxOut).nValue).natAbs
      = (setCompact nBits
      * (txPrev.vout.getD prevout.n defaultTxOut).nValue).toNat := by
    omega
  simp only [CheckStakeKernelHash]
  rw [if_neg (by omega)]
  by_cases hcmp : (Hash (serKernel pindexPrev.bnStakeModifier txPrev.nTime
      prevout.hash prevout.n nTimeTx) : Int)
      > setCompact nBits * (txPrev.vout.getD prevout.n defaultTxOut).nValue
  · rw [if_pos hcmp]
    exact ⟨Or.inr rfl,
      ⟨fun hh => absurd hh (by simp), fun hle => absurd hle (not_le.mpr hcmp)⟩,
      by simp only [getuint256]; rw [habs]⟩
  · rw [if_neg hcmp]
    exact ⟨Or.inl rfl, ⟨fun _ => not_lt.mp hcmp, fun _ => rfl⟩,
      by simp only [getuint256]; rw [habs]⟩

set_option maxRecDepth 8000 in
/-- Witness for the amended C8 at a concrete input with a 257-bit weighted
target. -/
theorem targetOverflow_amended_witness :
    ((CheckStakeKernelHash zeroHash nBitsHuge idx0 defaultHeader txPrevOne
        prevout55 200 0 0 false).result = .ok () ∨
      (CheckStakeKernelHash zeroHash nBitsHuge idx0 defaultHeader txPrevOne
        prevout55 200 0 0 false).result = .error .targetNotMet) ∧
    ((CheckStakeKernelHash zeroHash nBitsHuge idx0 defaultHeader txPrevOne
        prevout55 200 0 0 false).result = .ok ()
      ↔ (zeroHash (serKernel idx0.bnStakeModifier txPrevOne.nTime prevout55.hash
            prevout55.n 200) : Int)
          ≤ setCompact nBitsHuge * (txPrevOne.vout.getD prevout55.n defaultTxOut).nValue) ∧
    (CheckStakeKernelHash zeroHash nBitsHuge idx0 defaultHeader txPrevOne
        prevout55 200 0 0 false).targetProofOfStake
      = (setCompact nBitsHuge * (txPrevOne.vout.getD prevout55.n defaultTxOut).nValue).toNat
          % 2 ^ 256 :=
  targetOverflow_amended zeroHash nBitsHuge idx0 defaultHeader txPrevOne
    prevout55 200 0 0 false (by decide) (by decide)

set_option maxRecDepth 8000 in
/-- Claim C10: for every timestamp-valid call with a nonnegative weighted
target, the `targetProofOfStake` out-parameter is the low 256 bits of the
arbitrary-precision product while acceptance compares against the
untruncated product; and at a concrete input whose product is 2^256 the
call accepts even though the kernel hash exceeds the reported target. -/
theorem truncatedTarget_spec :
    (∀ (Hash : List Nat → Nat) (nBits : Nat) (pindexPrev : CBlockIndex)
        (blockFrom : CBlockHeader) (txPrev : Transaction) (prevout : COutPoint)
        (nTimeTx hashIn targetIn : Nat) (fPrint : Bool),
      txPrev.nTime ≤ nTimeTx →
      (0 : Int) ≤ setCompact nBits * (txPrev.vout.getD prevout.n defaultTxOut).nValue →
      ((CheckStakeKernelHash Hash nBits pindexPrev blockFrom txPrev prevout
          nTimeTx hashIn targetIn fPrint).targetProofOfStake
        = (setCompact nBits * (txPrev.vout.getD prevout.n defaultTxOut).nValue).toNat
            % 2 ^ 256 ∧
       ((CheckStakeKernelHash Hash nBits pindexPrev blockFrom txPrev prevout
          nTimeTx hashIn targetIn fPrint).result = .ok ()
        ↔ (Hash (serKernel pindexPrev.bnStakeModifier txPrev.nTime prevout.hash
              prevout.n nTimeTx) : Int)
            ≤ setCompact nBits * (txPrev.vout.getD prevout.n defaultTxOut).nValue))) ∧
    ((2 : Int) ^ 256 ≤ setCompact nBitsHuge
        * (txPrevOne.vout.getD prevout55.n defaultTxOut).nValue ∧
     (CheckStakeKernelHash oneHash nBitsHuge idx0 defaultHeader txPrevOne
        prevout55 200 0 0 false).result = .ok () ∧
     (CheckStakeKernelHash oneHash nBitsHuge idx0 defaultHeader txPrevOne
        prevout55 200 0 0 false).targetProofOfStake
       < (CheckStakeKernelHash oneHash nBitsHuge idx0 defaultHeader txPrevOne
        prevout55 200 0 0 false).hashProofOfStake) := by
  constructor
  · intro Hash nBits pindexPrev blockFrom txPrev prevout nTimeTx hashIn targetIn
      fPrint h1 h0
    have habs : (setCompact nBits
        * (txPrev.vout.getD prevout.n defaultTxOut).nValue).natAbs
        = (setCompact nBits
        * (txPrev.vout.getD prevout.n defaultTxOut).nValue).toNat := by
      omega
    simp only [CheckStakeKernelHash]
    rw [if_neg (by omega)]
    by_cases hcmp : (Hash (serKernel pindexPrev.bnStakeModifier txPrev.nTime
        prevout.hash prevout.n nTimeTx) : Int)
        > setCompact nBits * (txPrev.vout.getD prevout.n defaultTxOut).nValue
    · rw [if_pos hcmp]
      exact ⟨by simp only [getuint256]; rw [habs],
        ⟨fun hh => absurd hh (by simp), fun hle => absurd hle (not_le.mpr hcmp)⟩⟩
    · rw [if_neg hcmp]
      exact ⟨by simp only [getuint256]; rw [habs],
        ⟨fun _ => not_lt.mp hcmp, fun _ => rfl⟩⟩
  · exact ⟨by decide, rfl, by decide⟩

/-- Witness for C10 at a concrete input with a small, in-range weighted
target. -/
theorem truncatedTarget_spec_witness :
    (CheckStakeKernelHash zeroHash nBitsSmall idx0 defaultHeader txPrev1000
        prevout55 200 0 0 false).targetProofOfStake
      = (setCompact nBitsSmall * (txPrev1000.vout.getD prevout55.n defaultTxOut).nValue).toNat
          % 2 ^ 256 ∧
    ((CheckStakeKernelHash zeroHash nBitsSmall idx0 defaultHeader txPrev1000
        prevout55 200 0 0 false).result = .ok ()
      ↔ (zeroHash (serKernel idx0.bnStakeModifier txPrev1000.nTime prevout55.hash
            prevout55.n 200) : Int)
          ≤ setCompact nBitsSmall * (txPrev1000.vout.getD prevout55.n defaultTxOut).nValue) :=
  truncatedTarget_spec.1 zeroHash nBitsSmall idx0 defaultHeader txPrev1000
    prevout55 200 0 0 false (by decide) (by decide)
